import Mathlib

/-!
Verification of the helpline call-center client (browser-side JavaScript).

The definitions below are a shallow embedding of the code in
`src/frontend/src/lib/api.js` (axios instance and interceptors, resource
gateways, the CallLogPage component: `initFromParams`, `handleSubmit`,
`formatTimerDisplay`), `src/frontend/src/App.jsx` (`ProtectedRoute`, the
admin routes), `src/frontend/src/components/Layout.js` (`getNavItems`),
`src/frontend/src/pages/ContactsPage.js` (`handleResetPassword`) and the
calls-list page (`formatDuration`, CSV export).

JavaScript strings are modelled as Lean `String`, nullable values as
`Option`, JS truthiness of strings/numbers explicitly, and the network as
an explicit oracle (`Except` results for each remote call).  Each handler
is a pure function returning the ordered list of network calls it issues
together with its user-visible outcome.
-/

namespace Helpline

/-- Truthiness of a JS string: the empty string is falsy. -/
def truthyS (s : String) : Bool := s ≠ ""

/-- Truthiness of a nullable JS string (`null`/`undefined` and `""` are falsy). -/
def truthyOpt : Option String → Bool
  | none => false
  | some s => truthyS s

/-- Evaluates `x || null` on a nullable JS string: keeps `x` when truthy, else `null`. -/
def truthyId (o : Option String) : Option String :=
  if truthyOpt o then o else none

/-- Whitespace characters removed by JS `String.prototype.trim`. -/
def jsSpaceChar (c : Char) : Bool :=
  c = ' ' || c = '\t' || c = '\n' || c = '\r' || c = '\u000B' || c = '\u000C' ||
  c = '\u00A0' || c = '\uFEFF' || c = '\u2028' || c = '\u2029'

/-- JS `s.trim()`: strips leading and trailing whitespace. -/
def jsTrim (s : String) : String :=
  ⟨((s.data.dropWhile jsSpaceChar).reverse.dropWhile jsSpaceChar).reverse⟩

/-- Evaluates `s.trim() || null`: the trimmed string when nonempty, else `null`. -/
def trimOrNull (s : String) : Option String :=
  if truthyS (jsTrim s) then some (jsTrim s) else none

/-- A JS number that is either an actual integer or `NaN`
(the only values the embedded expressions can produce). -/
inductive JSNum
  | nan
  | int (n : Int)
deriving DecidableEq, Repr

/-- JS truthiness of a number: `NaN` and `0` are falsy. -/
def JSNum.truthy : JSNum → Bool
  | .nan => false
  | .int n => n ≠ 0

/-- The JS `||` operator restricted to numbers: left operand when truthy, else right. -/
def jsOr (a b : JSNum) : JSNum := if a.truthy then a else b

/-- Extracts the integer from a `JSNum`, defaulting `NaN` to 0
(only applied to expressions ending in `|| 0`, which never produce `NaN`). -/
def JSNum.toIntD : JSNum → Int
  | .nan => 0
  | .int n => n

/-- Whitespace characters skipped by JS `parseInt`. -/
def jsWhitespaceChar (c : Char) : Bool :=
  c = ' ' || c = '\t' || c = '\n' || c = '\r' || c = '\u000B' || c = '\u000C'

/-- The longest prefix of decimal digits. -/
def takeDecDigits (cs : List Char) : List Char := cs.takeWhile Char.isDigit

/-- Value of a list of decimal digit characters (most significant first). -/
def decDigitsVal (ds : List Char) : Nat :=
  ds.foldl (fun a c => a * 10 + (c.toNat - 48)) 0

/-- Hexadecimal digit test, as accepted by JS `parseInt` with a `0x` prefix. -/
def hexDigitChar (c : Char) : Bool :=
  c.isDigit || ('a' ≤ c && c ≤ 'f') || ('A' ≤ c && c ≤ 'F')

/-- Value of a single hexadecimal digit character. -/
def hexDigitVal (c : Char) : Nat :=
  if c.isDigit then c.toNat - 48 else if 'a' ≤ c then c.toNat - 87 else c.toNat - 55

/-- Value of a list of hexadecimal digit characters. -/
def hexDigitsVal (ds : List Char) : Nat :=
  ds.foldl (fun a c => a * 16 + hexDigitVal c) 0

/-- Applies an optional leading minus sign to a parsed magnitude. -/
def applySign (neg : Bool) (n : Nat) : Int :=
  if neg then -(n : Int) else (n : Int)

/-- Digit-parsing phase of JS `parseInt` after sign handling:
a `0x`/`0X` prefix switches to hexadecimal, otherwise the longest decimal
digit prefix is taken; no digits at all yields `NaN`. -/
def parseIntDigits (neg : Bool) (cs : List Char) : JSNum :=
  match cs with
  | '0' :: x :: rest =>
    if x = 'x' || x = 'X' then
      let ds := rest.takeWhile hexDigitChar
      if ds.isEmpty then .nan else .int (applySign neg (hexDigitsVal ds))
    else
      .int (applySign neg (decDigitsVal (takeDecDigits cs)))
  | _ =>
    let ds := takeDecDigits cs
    if ds.isEmpty then .nan else .int (applySign neg (decDigitsVal ds))

/-- JS `parseInt(s)` (radix unspecified): skip whitespace, optional sign,
then parse a hexadecimal (`0x` prefix) or decimal digit prefix; `NaN` when
no digits are found. -/
def parseIntJS (s : String) : JSNum :=
  let cs := s.data.dropWhile jsWhitespaceChar
  match cs with
  | '-' :: rest => parseIntDigits true rest
  | '+' :: rest => parseIntDigits false rest
  | _ => parseIntDigits false cs

/-- The duration sent on submission, from CallLogPage `handleSubmit`:
`timerSeconds || parseInt(duration) || 0`. -/
def durationValue (timerSeconds : Nat) (durationStr : String) : Int :=
  (jsOr (jsOr (.int (timerSeconds : Int)) (parseIntJS durationStr)) (.int 0)).toIntD

/-- A contact record as used by CallLogPage (only the `id` field is read
by the submission logic). -/
structure Contact where
  id : String
deriving DecidableEq, Repr

/-- The error object of a failed axios request; `detail` models the
optional-chain `error.response?.data?.detail`. -/
structure ApiError where
  detail : Option String
deriving DecidableEq, Repr

/-- The toast message for a failed request:
`error.response?.data?.detail || fallback`. -/
def errorMessage (e : ApiError) (fallback : String) : String :=
  match e.detail with
  | some d => if truthyS d then d else fallback
  | none => fallback

/-- The component state of CallLogPage that `handleSubmit` reads. -/
structure FormState where
  callerNumber : String
  duration : String
  callType : String
  priority : String
  status : String
  notes : String
  resolutionNotes : String
  contactFound : Option Bool
  existingContact : Option Contact
  newContactName : String
  newContactEmail : String
  newContactAddress : String
  newContactCompany : String
  timerSeconds : Nat
deriving DecidableEq, Repr

/-- The `callData` payload built by `handleSubmit` for `callsAPI.create`. -/
structure CallData where
  caller_number : String
  duration : Int
  call_type : String
  priority : String
  status : String
  notes : Option String
  resolution_notes : Option String
  contact_id : Option String
deriving DecidableEq, Repr

/-- The body of the follow-up `contactsAPI.update` call
(each field is `value || null`, untrimmed). -/
structure ContactUpdate where
  name : Option String
  email : Option String
  address : Option String
  company : Option String
deriving DecidableEq, Repr

/-- The part of the create-call response read by `handleSubmit`
(`callResponse.data.contact_id`). -/
structure CreateCallResponse where
  contact_id : String
deriving DecidableEq, Repr

/-- Network oracle for one submission: the result each remote call would
return if issued. -/
structure SubmitEnv where
  createResult : Except ApiError CreateCallResponse
  updateResult : Except ApiError Unit
  markResult : Except ApiError Unit
deriving Repr

/-- A network call issued during submission, in order. -/
inductive SubmitAction
  | createCall (data : CallData) (callEventId : Option String)
  | updateContact (contactId : String) (upd : ContactUpdate)
  | markProcessed (eventId : String)
deriving DecidableEq, Repr

/-- The user-visible outcome of a submission attempt. -/
inductive SubmitOutcome
  | validationError (msg : String)
  | errorToast (msg : String)
  | success
deriving DecidableEq, Repr

/-- The `contact_id` field of the payload:
`existingContact?.id || contactIdParam || null`. -/
def contactIdField (existingContact : Option Contact) (contactIdParam : Option String) :
    Option String :=
  match existingContact with
  | some c => if truthyS c.id then some c.id else truthyId contactIdParam
  | none => truthyId contactIdParam

/-- The `callData` object built at the top of the `try` block of `handleSubmit`. -/
def buildCallData (st : FormState) (contactIdParam : Option String) : CallData where
  caller_number := jsTrim st.callerNumber
  duration := durationValue st.timerSeconds st.duration
  call_type := st.callType
  priority := st.priority
  status := st.status
  notes := trimOrNull st.notes
  resolution_notes := trimOrNull st.resolutionNotes
  contact_id := contactIdField st.existingContact contactIdParam

/-- The guard of the follow-up contact update:
`contactFound === false && (newContactName || newContactEmail || newContactAddress || newContactCompany)`. -/
def updateNeeded (st : FormState) : Bool :=
  st.contactFound = some false &&
    (truthyS st.newContactName || truthyS st.newContactEmail ||
     truthyS st.newContactAddress || truthyS st.newContactCompany)

/-- The body passed to `contactsAPI.update` (each field `value || null`). -/
def updatePayload (st : FormState) : ContactUpdate where
  name := truthyId (some st.newContactName)
  email := truthyId (some st.newContactEmail)
  address := truthyId (some st.newContactAddress)
  company := truthyId (some st.newContactCompany)

/-- The mark-processed call issued when `callEventIdParam` is truthy.
Its failure is swallowed by an inner `try`/`catch` that only logs, so the
submission result does not depend on the oracle's `markResult`. -/
def markCalls : Option String → List SubmitAction
  | some eid => [.markProcessed eid]
  | none => []

/-- CallLogPage `handleSubmit`: validate the caller number, create the call
record (correlating the truthy `callEventId` query parameter), optionally
issue one contact update, then best-effort mark the telephony event
processed, navigating away on success.  A failure of the create or update
request jumps to the outer `catch`, which surfaces the server detail (or a
generic fallback) and stays on the screen. -/
def handleSubmit (st : FormState) (contactIdParam callEventIdParam : Option String)
    (env : SubmitEnv) : List SubmitAction × SubmitOutcome :=
  if jsTrim st.callerNumber = "" then
    ([], .validationError "Please enter a caller number")
  else
    let callData := buildCallData st contactIdParam
    let evId := truthyId callEventIdParam
    match env.createResult with
    | .error e =>
      ([.createCall callData evId], .errorToast (errorMessage e "Failed to log call"))
    | .ok resp =>
      if updateNeeded st then
        match env.updateResult with
        | .error e =>
          ([.createCall callData evId, .updateContact resp.contact_id (updatePayload st)],
           .errorToast (errorMessage e "Failed to log call"))
        | .ok _ =>
          ([.createCall callData evId, .updateContact resp.contact_id (updatePayload st)]
            ++ markCalls evId, .success)
      else
        ([.createCall callData evId] ++ markCalls evId, .success)

/-- The screen state set by the CallLogPage initialization effect. -/
structure InitState where
  callerNumber : String
  isFromFreePBX : Bool
  contactFound : Option Bool
  existingContact : Option Contact
  timerRunning : Bool
deriving DecidableEq, Repr

/-- The initial CallLogPage state (all `useState` defaults that
`initFromParams` may touch). -/
def initialScreenState : InitState where
  callerNumber := ""
  isFromFreePBX := false
  contactFound := none
  existingContact := none
  timerRunning := false

/-- CallLogPage `initFromParams`: when a truthy `phone` query parameter is
present, pre-fill the caller number, flag the FreePBX entry mode and
auto-start the timer; with a truthy `contact` parameter, fetch the contact
(success records it as found; a fetch failure sets `contactFound` to
`false`), otherwise the caller is treated as new. -/
def initFromParams (phoneParam contactIdParam : Option String)
    (getByIdResult : Except ApiError Contact) (st : InitState) : InitState :=
  if truthyOpt phoneParam then
    let base := { st with
      callerNumber := phoneParam.getD ""
      isFromFreePBX := true
      timerRunning := true }
    if truthyOpt contactIdParam then
      match getByIdResult with
      | .ok c => { base with existingContact := some c, contactFound := some true }
      | .error _ => { base with contactFound := some false }
    else
      { base with contactFound := some false }
  else st

/-- Number of contact-update calls in a submission trace. -/
def countUpdates (l : List SubmitAction) : Nat :=
  (l.filter fun a => match a with | .updateContact _ _ => true | _ => false).length

/-- Number of mark-processed calls in a submission trace. -/
def countMarks (l : List SubmitAction) : Nat :=
  (l.filter fun a => match a with | .markProcessed _ => true | _ => false).length

/-! ## Remote resource gateway (`api.js`): endpoints and interceptors -/

/-- Every HTTP request the client can issue, one constructor per gateway
function of `api.js`. -/
inductive Endpoint
  | authRegister | authLogin | authMe
  | contactsGetAll | contactsGetById | contactsGetByPhone
  | contactsCreate | contactsUpdate | contactsDelete
  | callsGetAll | callsGetById | callsGetStats | callsCreate | callsUpdate
  | callsExportCSV
  | adminGetUsers | adminGetUser | adminCreateUser | adminUpdateUser
  | adminDeleteUser | adminResetPassword | adminGetStats
  | freepbxGetCallEvents | freepbxGetCallEvent | freepbxMarkProcessed
  | freepbxGetPendingCalls
deriving DecidableEq, Repr

/-- Whether the gateway function routes through the shared axios instance
`api` (and hence through both interceptors).  Every function in `api.js`
does, except `callsAPI.exportCSV`, which issues a raw `fetch`. -/
def usesSharedInstance : Endpoint → Bool
  | .callsExportCSV => false
  | _ => true

/-- The client-persisted session (`localStorage` keys `token` and `user`). -/
structure SessionStorage where
  token : Option String
  user : Option String
deriving DecidableEq, Repr

/-- Renders a nullable value inside a JS template literal
(`null` prints as the string "null"). -/
def templateStr : Option String → String
  | none => "null"
  | some s => s

/-- The Authorization header a request carries.  Through the shared
instance, the request interceptor adds `Bearer <token>` only when a truthy
token is in storage; `exportCSV` always interpolates the stored token into
its `fetch` headers. -/
def requestAuthHeader (e : Endpoint) (st : SessionStorage) : Option String :=
  if usesSharedInstance e then
    match st.token with
    | some t => if truthyS t then some ("Bearer " ++ t) else none
    | none => none
  else
    some ("Bearer " ++ templateStr st.token)

/-- Effect of receiving an error response: the resulting storage and
whether the browser was redirected to `/login`. -/
structure ResponseEffect where
  storage : SessionStorage
  redirectedToLogin : Bool
deriving DecidableEq, Repr

/-- Effect of an error response with the given status (`none` models a
network error with no response).  The response interceptor of the shared
axios instance removes `token` and `user` and redirects on status 401;
`exportCSV`'s raw `fetch` path has no such handling (`fetch` resolves and
the body is read as a blob). -/
def onErrorResponse (e : Endpoint) (status : Option Nat) (st : SessionStorage) :
    ResponseEffect :=
  if usesSharedInstance e then
    if status = some 401 then ⟨⟨none, none⟩, true⟩ else ⟨st, false⟩
  else ⟨st, false⟩

/-! ## Route guarding (`App.jsx`) and navigation (`Layout.js`) -/

/-- The authenticated user as read by the route guard (only `role` is used). -/
structure AuthUser where
  role : String
deriving DecidableEq, Repr

/-- What a route wrapper renders. -/
inductive RouteOutcome
  | loadingSpinner
  | redirectLogin
  | redirectDashboard
  | renderPage
deriving DecidableEq, Repr

/-- `ProtectedRoute` of `App.jsx`: spinner while auth is loading, redirect
to `/login` when no user, redirect to `/dashboard` when `requiredRoles` is
given and does not include the user's role, else render the page. -/
def protectedRoute (loading : Bool) (user : Option AuthUser)
    (requiredRoles : Option (List String)) : RouteOutcome :=
  if loading then .loadingSpinner
  else
    match user with
    | none => .redirectLogin
    | some u =>
      match requiredRoles with
      | some roles => if u.role ∈ roles then .renderPage else .redirectDashboard
      | none => .renderPage

/-- The `requiredRoles` prop of the `/admin` and `/admin/*` routes. -/
def adminRequiredRoles : List String := ["admin"]

/-- A sidebar navigation item (path and label; the icon is presentation only). -/
structure NavItem where
  path : String
  label : String
deriving DecidableEq, Repr

/-- `getNavItems` of `Layout.js`: the base items, plus the Admin link for
the admin role. -/
def getNavItems (role : String) : List NavItem :=
  let items : List NavItem :=
    [⟨"/dashboard", "Dashboard"⟩, ⟨"/calls/new", "Log Call"⟩,
     ⟨"/calls", "Call History"⟩, ⟨"/contacts", "Contacts"⟩]
  if role = "admin" then items ++ [⟨"/admin", "Admin"⟩] else items

/-! ## Admin password reset (`ContactsPage.js`, AdminPage section) -/

/-- A privileged admin request issued by the reset-password dialog. -/
inductive AdminAction
  | resetPasswordCall (userId : String) (new_password : String)
deriving DecidableEq, Repr

/-- Outcome of a reset-password attempt. -/
inductive ResetOutcome
  | validationError (msg : String)
  | errorToast (msg : String)
  | success
deriving DecidableEq, Repr

/-- `handleResetPassword`: reject passwords shorter than 6 characters
locally, otherwise issue exactly one reset-password request against the
selected user and report its result. -/
def handleResetPassword (newPassword : String) (selectedUserId : String)
    (resetResult : Except ApiError Unit) : List AdminAction × ResetOutcome :=
  if newPassword.length < 6 then
    ([], .validationError "Password must be at least 6 characters")
  else
    match resetResult with
    | .ok _ => ([.resetPasswordCall selectedUserId newPassword], .success)
    | .error e =>
      ([.resetPasswordCall selectedUserId newPassword],
       .errorToast (errorMessage e "Failed to reset password"))

/-! ## CallLogPage duration UI -/

/-- Render guard of the manual duration input:
`{!timerRunning && timerSeconds === 0 && (...)}`. -/
def manualDurationInputVisible (timerRunning : Bool) (timerSeconds : Nat) : Bool :=
  !timerRunning && timerSeconds = 0

/-- Render guard of the live timer display:
`{(timerRunning || timerSeconds > 0) && (...)}`. -/
def timerDisplayVisible (timerRunning : Bool) (timerSeconds : Nat) : Bool :=
  timerRunning || timerSeconds > 0

/-- Disabled state of the submit button: `disabled={isSubmitting || timerRunning}`. -/
def submitDisabled (isSubmitting timerRunning : Bool) : Bool :=
  isSubmitting || timerRunning

/-! ## Duration rendering (`formatTimerDisplay`, `formatDuration`) -/

/-- The decimal digit character for a value below ten. -/
def digitChar (n : Nat) : Char := Char.ofNat (48 + n)

/-- Decimal digit characters of a natural number, most significant first
(the embedding of JS `Number.prototype.toString` on non-negative integers). -/
def natDigits (n : Nat) : List Char :=
  if _h : n < 10 then [digitChar n]
  else natDigits (n / 10) ++ [digitChar (n % 10)]
decreasing_by exact Nat.div_lt_self (by omega) (by omega)

/-- JS `s.padStart(w, c)` on a character list: left-pad to width `w`. -/
def padTo (w : Nat) (c : Char) (cs : List Char) : List Char :=
  List.replicate (w - cs.length) c ++ cs

/-- `formatTimerDisplay` of CallLogPage: minutes and seconds both
zero-padded to two digits, joined by a colon. -/
def formatTimerDisplay (seconds : Nat) : String :=
  ⟨padTo 2 '0' (natDigits (seconds / 60)) ++ ':' :: padTo 2 '0' (natDigits (seconds % 60))⟩

/-- `formatDuration` of the calls-list page: unpadded minutes, colon,
seconds zero-padded to two digits. -/
def formatDuration (seconds : Nat) : String :=
  ⟨natDigits (seconds / 60) ++ ':' :: padTo 2 '0' (natDigits (seconds % 60))⟩

/-- Splits a character list at its first colon (everything before it,
everything after it). -/
def splitAtColon (cs : List Char) : List Char × List Char :=
  match cs with
  | [] => ([], [])
  | c :: rest =>
    if c = ':' then ([], rest)
    else
      let p := splitAtColon rest
      (c :: p.1, p.2)

/-- Reads a rendered duration string back into seconds: minutes before the
colon times sixty plus the seconds after it. -/
def parseDuration (s : String) : Nat :=
  let p := splitAtColon s.data
  decDigitsVal p.1 * 60 + decDigitsVal p.2

/-! ## Sample concrete states (used to instantiate the theorems) -/

/-- A plain manual-entry form with the default select values and an empty
optional section. -/
def sampleForm : FormState where
  callerNumber := "+15551234567"
  duration := ""
  callType := "inquiry"
  priority := "normal"
  status := "completed"
  notes := ""
  resolutionNotes := ""
  contactFound := none
  existingContact := none
  newContactName := ""
  newContactEmail := ""
  newContactAddress := ""
  newContactCompany := ""
  timerSeconds := 0

/-- An oracle in which every remote call succeeds. -/
def sampleEnvOk : SubmitEnv where
  createResult := .ok ⟨"c1"⟩
  updateResult := .ok ()
  markResult := .ok ()

/-- The sample form after a lookup that found no contact, optional section
left empty. -/
def sampleFormNotFound : FormState :=
  { sampleForm with contactFound := some false }

/-- The sample form after a lookup that found no contact, with a name
typed into the optional new-contact section. -/
def sampleFormNotFoundNamed : FormState :=
  { sampleForm with contactFound := some false, newContactName := "Alice" }

/-! ## Lemmas about the duration renderers -/

theorem digitChar_toNat (d : Nat) (h : d < 10) : (digitChar d).toNat = 48 + d := by
  interval_cases d <;> decide

theorem natDigits_small (n : Nat) (h : n < 10) : natDigits n = [digitChar n] := by
  rw [natDigits]
  exact dif_pos h

theorem natDigits_step (n : Nat) (h : ¬ n < 10) :
    natDigits n = natDigits (n / 10) ++ [digitChar (n % 10)] := by
  conv_lhs => rw [natDigits]
  exact dif_neg h

theorem decDigitsVal_append_singleton (ds : List Char) (c : Char) :
    decDigitsVal (ds ++ [c]) = decDigitsVal ds * 10 + (c.toNat - 48) := by
  simp [decDigitsVal, List.foldl_append]

theorem decDigitsVal_natDigits (n : Nat) : decDigitsVal (natDigits n) = n := by
  induction n using Nat.strong_induction_on with
  | _ n ih =>
    by_cases h : n < 10
    · rw [natDigits_small n h]
      simp [decDigitsVal, digitChar_toNat n h]
    · rw [natDigits_step n h, decDigitsVal_append_singleton,
        ih (n / 10) (Nat.div_lt_self (by omega) (by omega)),
        digitChar_toNat (n % 10) (Nat.mod_lt _ (by omega))]
      omega

theorem natDigits_are_digits (n : Nat) :
    ∀ c ∈ natDigits n, 48 ≤ c.toNat ∧ c.toNat ≤ 57 := by
  induction n using Nat.strong_induction_on with
  | _ n ih =>
    by_cases h : n < 10
    · rw [natDigits_small n h]
      intro c hc
      rw [List.mem_singleton] at hc
      subst hc
      rw [digitChar_toNat n h]
      omega
    · rw [natDigits_step n h]
      intro c hc
      rw [List.mem_append] at hc
      rcases hc with hc | hc
      · exact ih (n / 10) (Nat.div_lt_self (by omega) (by omega)) c hc
      · rw [List.mem_singleton] at hc
        subst hc
        rw [digitChar_toNat (n % 10) (Nat.mod_lt _ (by omega))]
        omega

theorem natDigits_ne_colon (n : Nat) : ∀ c ∈ natDigits n, c ≠ ':' := by
  intro c hc he
  subst he
  exact absurd (natDigits_are_digits n _ hc).2 (by decide)

theorem padTo_zero_mem_ne_colon (w : Nat) (ds : List Char)
    (hd : ∀ c ∈ ds, c ≠ ':') : ∀ c ∈ padTo w '0' ds, c ≠ ':' := by
  intro c hc
  rw [padTo, List.mem_append] at hc
  rcases hc with hc | hc
  · rw [List.eq_of_mem_replicate hc]
    decide
  · exact hd c hc

theorem decDigitsVal_replicate_zero (k : Nat) (ds : List Char) :
    decDigitsVal (List.replicate k '0' ++ ds) = decDigitsVal ds := by
  induction k with
  | zero => simp
  | succ k ih =>
    rw [List.replicate_succ, List.cons_append]
    simpa [decDigitsVal] using ih

theorem decDigitsVal_padTo (w : Nat) (ds : List Char) :
    decDigitsVal (padTo w '0' ds) = decDigitsVal ds := by
  rw [padTo, decDigitsVal_replicate_zero]

theorem splitAtColon_append (a b : List Char) (ha : ∀ c ∈ a, c ≠ ':') :
    splitAtColon (a ++ ':' :: b) = (a, b) := by
  induction a with
  | nil => simp [splitAtColon]
  | cons c rest ih =>
    have hc : c ≠ ':' := ha c (List.mem_cons_self _ _)
    rw [List.cons_append, splitAtColon, if_neg hc,
      ih fun x hx => ha x (List.mem_cons_of_mem _ hx)]

theorem natDigits_length_le_two (n : Nat) (h : n < 100) :
    (natDigits n).length ≤ 2 := by
  by_cases h10 : n < 10
  · rw [natDigits_small n h10]
    simp
  · rw [natDigits_step n h10, natDigits_small (n / 10) (by omega)]
    simp

theorem padTo_two_length (ds : List Char) (h : ds.length ≤ 2) :
    (padTo 2 '0' ds).length = 2 := by
  rw [padTo]
  simp only [List.length_append, List.length_replicate]
  omega

theorem splitAtColon_formatDuration (n : Nat) :
    splitAtColon (formatDuration n).data
      = (natDigits (n / 60), padTo 2 '0' (natDigits (n % 60))) := by
  exact splitAtColon_append _ _ (natDigits_ne_colon (n / 60))

theorem splitAtColon_formatTimerDisplay (n : Nat) :
    splitAtColon (formatTimerDisplay n).data
      = (padTo 2 '0' (natDigits (n / 60)), padTo 2 '0' (natDigits (n % 60))) := by
  exact splitAtColon_append _ _
    (padTo_zero_mem_ne_colon 2 _ (natDigits_ne_colon (n / 60)))

theorem parseDuration_formatDuration (n : Nat) :
    parseDuration (formatDuration n) = n := by
  rw [parseDuration, splitAtColon_formatDuration]
  simp only [decDigitsVal_natDigits, decDigitsVal_padTo]
  omega

theorem parseDuration_formatTimerDisplay (n : Nat) :
    parseDuration (formatTimerDisplay n) = n := by
  rw [parseDuration, splitAtColon_formatTimerDisplay]
  simp only [decDigitsVal_natDigits, decDigitsVal_padTo]
  omega

/-! ## Case lemmas for the submission protocol -/

theorem handleSubmit_emptyCaller (st : FormState) (p q : Option String) (env : SubmitEnv)
    (h : jsTrim st.callerNumber = "") :
    handleSubmit st p q env = ([], .validationError "Please enter a caller number") := by
  unfold handleSubmit
  rw [if_pos h]

theorem handleSubmit_createError (st : FormState) (p q : Option String) (env : SubmitEnv)
    (e : ApiError) (h : jsTrim st.callerNumber ≠ "") (hc : env.createResult = .error e) :
    handleSubmit st p q env =
      ([.createCall (buildCallData st p) (truthyId q)],
       .errorToast (errorMessage e "Failed to log call")) := by
  unfold handleSubmit
  rw [if_neg h, hc]

theorem handleSubmit_ok_noUpdate (st : FormState) (p q : Option String) (env : SubmitEnv)
    (r : CreateCallResponse) (h : jsTrim st.callerNumber ≠ "")
    (hc : env.createResult = .ok r) (hu : updateNeeded st = false) :
    handleSubmit st p q env =
      ([.createCall (buildCallData st p) (truthyId q)] ++ markCalls (truthyId q),
       .success) := by
  unfold handleSubmit
  rw [if_neg h, hc]
  simp [hu]

theorem handleSubmit_ok_updateError (st : FormState) (p q : Option String) (env : SubmitEnv)
    (r : CreateCallResponse) (e : ApiError) (h : jsTrim st.callerNumber ≠ "")
    (hc : env.createResult = .ok r) (hu : updateNeeded st = true)
    (hr : env.updateResult = .error e) :
    handleSubmit st p q env =
      ([.createCall (buildCallData st p) (truthyId q),
        .updateContact r.contact_id (updatePayload st)],
       .errorToast (errorMessage e "Failed to log call")) := by
  unfold handleSubmit
  rw [if_neg h, hc]
  simp [hu, hr]

theorem handleSubmit_ok_updateOk (st : FormState) (p q : Option String) (env : SubmitEnv)
    (r : CreateCallResponse) (h : jsTrim st.callerNumber ≠ "")
    (hc : env.createResult = .ok r) (hu : updateNeeded st = true)
    (hr : env.updateResult = .ok ()) :
    handleSubmit st p q env =
      ([.createCall (buildCallData st p) (truthyId q),
        .updateContact r.contact_id (updatePayload st)] ++ markCalls (truthyId q),
       .success) := by
  unfold handleSubmit
  rw [if_neg h, hc]
  simp [hu, hr]

theorem handleSubmit_head (st : FormState) (p q : Option String) (env : SubmitEnv)
    (h : jsTrim st.callerNumber ≠ "") :
    ∃ rest, (handleSubmit st p q env).1
      = .createCall (buildCallData st p) (truthyId q) :: rest := by
  cases hc : env.createResult with
  | error e => exact ⟨_, by rw [handleSubmit_createError st p q env e h hc]⟩
  | ok r =>
    cases hu : updateNeeded st with
    | false => exact ⟨_, by rw [handleSubmit_ok_noUpdate st p q env r h hc hu]; rfl⟩
    | true =>
      cases hr : env.updateResult with
      | error e =>
        exact ⟨_, by rw [handleSubmit_ok_updateError st p q env r e h hc hu hr]⟩
      | ok u =>
        exact ⟨_, by rw [handleSubmit_ok_updateOk st p q env r h hc hu hr]; rfl⟩

/-! ## Claim theorems -/

/-- Claim C7: a submission whose caller number is empty after trimming
fails locally with the user-visible validation error and issues no network
call at all; a submission with a nonempty trimmed caller number issues the
create-call request (it is the first network call of the protocol). -/
theorem C7_caller_validation (st : FormState) (p q : Option String) (env : SubmitEnv) :
    (jsTrim st.callerNumber = "" →
       handleSubmit st p q env = ([], .validationError "Please enter a caller number")) ∧
    (jsTrim st.callerNumber ≠ "" →
       ∃ rest, (handleSubmit st p q env).1
         = .createCall (buildCallData st p) (truthyId q) :: rest) :=
  ⟨fun h => handleSubmit_emptyCaller st p q env h,
   fun h => handleSubmit_head st p q env h⟩

/-- Claim C7 witness: a whitespace-only caller number is rejected locally
with no network call, and the sample form's nonempty number leads to a
create-call request. -/
theorem C7_caller_validation_witness :
    (handleSubmit { sampleForm with callerNumber := "  " } none none sampleEnvOk
       = ([], .validationError "Please enter a caller number")) ∧
    ∃ rest, (handleSubmit sampleForm none none sampleEnvOk).1
      = .createCall (buildCallData sampleForm none) (truthyId none) :: rest :=
  ⟨(C7_caller_validation { sampleForm with callerNumber := "  " } none none sampleEnvOk).1
     (by decide),
   (C7_caller_validation sampleForm none none sampleEnvOk).2 (by decide)⟩

/-- Claim C4: the duration carried by the create-call request is the
stopwatch counter when it is nonzero, otherwise the manual duration field
parsed as an integer when that parse yields a truthy (nonzero, non-NaN)
number, otherwise zero. -/
theorem C4_duration_field (st : FormState) (p q : Option String) (env : SubmitEnv)
    (h : jsTrim st.callerNumber ≠ "") :
    ∃ rest, (handleSubmit st p q env).1
        = .createCall (buildCallData st p) (truthyId q) :: rest ∧
      (buildCallData st p).duration =
        (if st.timerSeconds ≠ 0 then (st.timerSeconds : Int)
         else
           match parseIntJS st.duration with
           | .int n => if n = 0 then 0 else n
           | .nan => 0) := by
  obtain ⟨rest, hrest⟩ := handleSubmit_head st p q env h
  refine ⟨rest, hrest, ?_⟩
  show durationValue st.timerSeconds st.duration = _
  unfold durationValue jsOr
  by_cases ht : st.timerSeconds = 0
  · rw [ht]
    cases hp : parseIntJS st.duration with
    | nan => simp [JSNum.truthy, JSNum.toIntD]
    | int n =>
      by_cases hn : n = 0
      · rw [hn]
        simp [JSNum.truthy, JSNum.toIntD]
      · simp [JSNum.truthy, JSNum.toIntD, hn]
  · have : ((st.timerSeconds : Int) ≠ 0) := by exact_mod_cast ht
    simp [JSNum.truthy, JSNum.toIntD, this, ht]

/-- Claim C4 witness: with a stopped stopwatch at zero and the manual field
reading "125", the submitted duration is 125. -/
theorem C4_duration_field_witness :
    ∃ rest, (handleSubmit { sampleForm with duration := "125" } none none sampleEnvOk).1
        = .createCall (buildCallData { sampleForm with duration := "125" } none)
            (truthyId none) :: rest ∧
      (buildCallData { sampleForm with duration := "125" } none).duration =
        (if ({ sampleForm with duration := "125" } : FormState).timerSeconds ≠ 0 then
           (({ sampleForm with duration := "125" } : FormState).timerSeconds : Int)
         else
           match parseIntJS ({ sampleForm with duration := "125" } : FormState).duration with
           | .int n => if n = 0 then 0 else n
           | .nan => 0) :=
  C4_duration_field { sampleForm with duration := "125" } none none sampleEnvOk (by decide)

/-- Claim C5: on a submission whose contact resolution ended NOT_FOUND and
whose create-call request succeeded, no contact-update call is issued when
all four optional new-contact fields are empty, and exactly one
contact-update call is issued — directed at the contact id returned by the
create-call response — when at least one of them is nonempty. -/
theorem C5_contact_update (st : FormState) (p q : Option String) (env : SubmitEnv)
    (r : CreateCallResponse) (h : jsTrim st.callerNumber ≠ "")
    (hc : env.createResult = .ok r) (hn : st.contactFound = some false) :
    ((truthyS st.newContactName = false ∧ truthyS st.newContactEmail = false ∧
      truthyS st.newContactAddress = false ∧ truthyS st.newContactCompany = false) →
       countUpdates (handleSubmit st p q env).1 = 0) ∧
    ((truthyS st.newContactName = true ∨ truthyS st.newContactEmail = true ∨
      truthyS st.newContactAddress = true ∨ truthyS st.newContactCompany = true) →
       countUpdates (handleSubmit st p q env).1 = 1 ∧
       SubmitAction.updateContact r.contact_id (updatePayload st)
         ∈ (handleSubmit st p q env).1) := by
  constructor
  · intro ⟨h1, h2, h3, h4⟩
    have hu : updateNeeded st = false := by
      simp [updateNeeded, h1, h2, h3, h4]
    rw [handleSubmit_ok_noUpdate st p q env r h hc hu]
    cases q' : truthyId q <;> simp [countUpdates, markCalls, q']
  · intro hor
    have hu : updateNeeded st = true := by
      rcases hor with hf | hf | hf | hf <;> simp [updateNeeded, hn, hf]
    cases hr : env.updateResult with
    | error e =>
      rw [handleSubmit_ok_updateError st p q env r e h hc hu hr]
      exact ⟨by simp [countUpdates], by simp⟩
    | ok u =>
      rw [handleSubmit_ok_updateOk st p q env r h hc hu hr]
      cases q' : truthyId q <;>
        exact ⟨by simp [countUpdates, markCalls], by simp [markCalls]⟩

/-- Claim C5 witness: with resolution ended NOT_FOUND, an all-empty
new-contact section issues no update, and a nonempty name issues exactly
one update directed at the created contact id. -/
theorem C5_contact_update_witness :
    (countUpdates (handleSubmit sampleFormNotFound none none sampleEnvOk).1 = 0) ∧
    (countUpdates (handleSubmit sampleFormNotFoundNamed none none sampleEnvOk).1 = 1 ∧
      SubmitAction.updateContact (CreateCallResponse.mk "c1").contact_id
          (updatePayload sampleFormNotFoundNamed)
        ∈ (handleSubmit sampleFormNotFoundNamed none none sampleEnvOk).1) :=
  ⟨(C5_contact_update sampleFormNotFound none none sampleEnvOk ⟨"c1"⟩
      (by decide) rfl (by decide)).1 (by decide),
   (C5_contact_update sampleFormNotFoundNamed none none sampleEnvOk ⟨"c1"⟩
      (by decide) rfl (by decide)).2 (by decide)⟩

/-- Claim C1 counterexample: a submission from a NOT_FOUND resolution with
a name in the new-contact section and telephony event id "900", whose
create-call request succeeds but whose contact-update request fails, does
not navigate (the outer catch reports an error toast) and issues no
mark-processed call at all — refuting both that navigation is independent
of the contact-update outcome and that exactly one mark-processed call is
issued whenever the create succeeds. -/
theorem C1_counterexample :
    (handleSubmit sampleFormNotFoundNamed none (some "900")
        ⟨.ok ⟨"c1"⟩, .error ⟨some "update failed"⟩, .ok ()⟩)
      = ([.createCall (buildCallData sampleFormNotFoundNamed none) (some "900"),
          .updateContact "c1" (updatePayload sampleFormNotFoundNamed)],
         .errorToast "update failed") ∧
    countMarks (handleSubmit sampleFormNotFoundNamed none (some "900")
        ⟨.ok ⟨"c1"⟩, .error ⟨some "update failed"⟩, .ok ()⟩).1 = 0 ∧
    (handleSubmit sampleFormNotFoundNamed none (some "900")
        ⟨.ok ⟨"c1"⟩, .error ⟨some "update failed"⟩, .ok ()⟩).2
      ≠ SubmitOutcome.success :=
  ⟨by decide, by decide, by decide⟩

/-- Claim C1 (amended): when the create-call request succeeds and the
contact-update step, whenever it is issued, also succeeds, the submission
reports success and navigates to the call list; in that case, a truthy
telephony event id leads to exactly one mark-processed call, issued after
the call record is created (it is the last call of the trace, the create
being the first), no such call is issued without a truthy event id, and the
result never depends on the outcome of the mark-processed request, whose
failure is swallowed. -/
theorem C1_navigation_amended (st : FormState) (p q : Option String) (env : SubmitEnv)
    (r : CreateCallResponse) (h : jsTrim st.callerNumber ≠ "")
    (hc : env.createResult = .ok r)
    (hu : updateNeeded st = true → env.updateResult = .ok ()) :
    (handleSubmit st p q env).2 = .success ∧
    (∀ e, q = some e → truthyS e = true →
       countMarks (handleSubmit st p q env).1 = 1 ∧
       (handleSubmit st p q env).1.getLast? = some (.markProcessed e)) ∧
    (truthyOpt q = false → countMarks (handleSubmit st p q env).1 = 0) ∧
    (∃ rest, (handleSubmit st p q env).1
       = .createCall (buildCallData st p) (truthyId q) :: rest) ∧
    (∀ mr, handleSubmit st p q ⟨env.createResult, env.updateResult, mr⟩
       = handleSubmit st p q env) := by
  have hindep : ∀ mr, handleSubmit st p q ⟨env.createResult, env.updateResult, mr⟩
      = handleSubmit st p q env := by
    intro mr
    cases env
    rfl
  by_cases hu' : updateNeeded st = true
  · have hr := hu hu'
    rw [handleSubmit_ok_updateOk st p q env r h hc hu' hr]
    refine ⟨rfl, ?_, ?_, ⟨_, rfl⟩, ?_⟩
    · intro e hq ht
      subst hq
      have hq' : truthyId (some e) = some e := by
        simp [truthyId, truthyOpt, ht]
      rw [hq']
      exact ⟨by simp [countMarks, markCalls], by simp [markCalls]⟩
    · intro hq
      have hq' : truthyId q = none := by simp [truthyId, hq]
      rw [hq']
      simp [countMarks, markCalls]
    · intro mr
      rw [hindep mr, handleSubmit_ok_updateOk st p q env r h hc hu' hr]
  · have hu'' : updateNeeded st = false := by simpa using hu'
    rw [handleSubmit_ok_noUpdate st p q env r h hc hu'']
    refine ⟨rfl, ?_, ?_, ⟨_, rfl⟩, ?_⟩
    · intro e hq ht
      subst hq
      have hq' : truthyId (some e) = some e := by
        simp [truthyId, truthyOpt, ht]
      rw [hq']
      exact ⟨by simp [countMarks, markCalls], by simp [markCalls]⟩
    · intro hq
      have hq' : truthyId q = none := by simp [truthyId, hq]
      rw [hq']
      simp [countMarks, markCalls]
    · intro mr
      rw [hindep mr, handleSubmit_ok_noUpdate st p q env r h hc hu'']

/-- Claim C1 witness: the amended statement at a concrete NOT_FOUND
submission with event id "900" and an all-success oracle: the outcome is
success and exactly one mark-processed call is issued, as the last call. -/
theorem C1_navigation_amended_witness :
    (handleSubmit sampleFormNotFoundNamed none (some "900") sampleEnvOk).2
        = SubmitOutcome.success ∧
    countMarks (handleSubmit sampleFormNotFoundNamed none (some "900") sampleEnvOk).1
        = 1 ∧
    (handleSubmit sampleFormNotFoundNamed none (some "900") sampleEnvOk).1.getLast?
        = some (.markProcessed "900") :=
  ⟨(C1_navigation_amended sampleFormNotFoundNamed none (some "900") sampleEnvOk ⟨"c1"⟩
      (by decide) rfl (fun _ => rfl)).1,
   ((C1_navigation_amended sampleFormNotFoundNamed none (some "900") sampleEnvOk ⟨"c1"⟩
      (by decide) rfl (fun _ => rfl)).2.1 "900" rfl (by decide)).1,
   ((C1_navigation_amended sampleFormNotFoundNamed none (some "900") sampleEnvOk ⟨"c1"⟩
      (by decide) rfl (fun _ => rfl)).2.1 "900" rfl (by decide)).2⟩

/-- Claim C3 counterexample: entering the screen with only a `contact`
query parameter leaves contact resolution never performed
(`contactFound` stays null and no contact is stored), yet the submitted
create-call payload's `contact_id` is the query parameter "42", not null —
the code computes `existingContact?.id || contactIdParam || null`. -/
theorem C3_counterexample :
    (initFromParams none (some "42") (.ok ⟨"ignored"⟩) initialScreenState).contactFound
        = none ∧
    (initFromParams none (some "42") (.ok ⟨"ignored"⟩) initialScreenState).existingContact
        = none ∧
    (buildCallData sampleForm (some "42")).contact_id = some "42" ∧
    sampleForm.existingContact = none ∧
    sampleForm.contactFound = none ∧
    (some "42" : Option String) ≠ none := by
  refine ⟨by decide, by decide, by decide, by decide, by decide, by decide⟩

/-- Claim C3 (amended): the create-call payload's `contact_id` equals the
resolved existing contact's id when one was resolved (with a nonempty id);
otherwise it falls back to the `contact` query parameter when that is
truthy, and only otherwise is it null; the request carries the telephony
correlation reference exactly when the `callEventId` query parameter is
truthy (present and nonempty). -/
theorem C3_contact_id_amended (st : FormState) (p q : Option String) (env : SubmitEnv)
    (h : jsTrim st.callerNumber ≠ "") :
    ∃ rest, (handleSubmit st p q env).1
        = .createCall (buildCallData st p) (truthyId q) :: rest ∧
      (∀ c, st.existingContact = some c → truthyS c.id = true →
         (buildCallData st p).contact_id = some c.id) ∧
      (st.existingContact = none → truthyOpt p = true →
         (buildCallData st p).contact_id = p) ∧
      (st.existingContact = none → truthyOpt p = false →
         (buildCallData st p).contact_id = none) ∧
      (truthyOpt q = true → truthyId q = q) ∧
      (truthyOpt q = false → truthyId q = none) := by
  obtain ⟨rest, hrest⟩ := handleSubmit_head st p q env h
  refine ⟨rest, hrest, ?_, ?_, ?_, ?_, ?_⟩
  · intro c hc hid
    show contactIdField st.existingContact p = some c.id
    rw [hc]
    simp [contactIdField, hid]
  · intro hc hp
    show contactIdField st.existingContact p = p
    rw [hc]
    simp [contactIdField, truthyId, hp]
  · intro hc hp
    show contactIdField st.existingContact p = none
    rw [hc]
    simp [contactIdField, truthyId, hp]
  · intro hq
    rw [truthyId, if_pos hq]
  · intro hq
    rw [truthyId, if_neg (by simp [hq])]

/-- Claim C3 witness: a resolved contact's id is used when present; with no
resolved contact and no query parameter the payload's `contact_id` is null,
and a truthy `callEventId` of "900" is carried as the correlation
reference. -/
theorem C3_contact_id_amended_witness :
    ∃ rest, (handleSubmit { sampleForm with existingContact := some ⟨"77"⟩ }
          none (some "900") sampleEnvOk).1
        = .createCall (buildCallData { sampleForm with existingContact := some ⟨"77"⟩ }
            none) (truthyId (some "900")) :: rest ∧
      (∀ c, ({ sampleForm with existingContact := some ⟨"77"⟩ } : FormState).existingContact
            = some c → truthyS c.id = true →
         (buildCallData { sampleForm with existingContact := some ⟨"77"⟩ } none).contact_id
           = some c.id) ∧
      (({ sampleForm with existingContact := some ⟨"77"⟩ } : FormState).existingContact
            = none → truthyOpt none = true →
         (buildCallData { sampleForm with existingContact := some ⟨"77"⟩ } none).contact_id
           = none) ∧
      (({ sampleForm with existingContact := some ⟨"77"⟩ } : FormState).existingContact
            = none → truthyOpt none = false →
         (buildCallData { sampleForm with existingContact := some ⟨"77"⟩ } none).contact_id
           = none) ∧
      (truthyOpt (some "900") = true → truthyId (some "900") = some "900") ∧
      (truthyOpt (some "900") = false → truthyId (some "900") = none) :=
  C3_contact_id_amended { sampleForm with existingContact := some ⟨"77"⟩ }
    none (some "900") sampleEnvOk (by decide)

/-- Claim C2 counterexample: a 401 response to the CSV export request —
which is issued through a raw `fetch`, not the shared axios instance —
leaves the stored token and user in place and triggers no redirect to the
login screen, refuting that every 401 response triggers global session
teardown regardless of endpoint. -/
theorem C2_counterexample :
    onErrorResponse .callsExportCSV (some 401) ⟨some "tok", some "alice"⟩
        = ⟨⟨some "tok", some "alice"⟩, false⟩ ∧
    onErrorResponse .callsExportCSV (some 401) ⟨some "tok", some "alice"⟩
        ≠ ⟨⟨none, none⟩, true⟩ :=
  ⟨by decide, by decide⟩

/-- Claim C2 (amended): every request through the shared axios instance
attaches `Bearer <token>` whenever a truthy token is in session storage,
and any 401 response to such a request clears both persisted keys and
redirects to the login screen; the CSV export request also attaches the
stored bearer token (interpolating `null` when absent) but bypasses the
response interceptor, so a 401 there causes no teardown; non-401 statuses
never cause teardown on any endpoint. -/
theorem C2_auth_amended (e : Endpoint) (st : SessionStorage) :
    (usesSharedInstance e = true →
       onErrorResponse e (some 401) st = ⟨⟨none, none⟩, true⟩ ∧
       ∀ t, st.token = some t → truthyS t = true →
          requestAuthHeader e st = some ("Bearer " ++ t)) ∧
    onErrorResponse .callsExportCSV (some 401) st = ⟨st, false⟩ ∧
    requestAuthHeader .callsExportCSV st = some ("Bearer " ++ templateStr st.token) ∧
    (∀ s, s ≠ some 401 → onErrorResponse e s st = ⟨st, false⟩) := by
  refine ⟨?_, ?_, ?_, ?_⟩
  · intro he
    refine ⟨by simp [onErrorResponse, he], ?_⟩
    intro t ht htt
    simp [requestAuthHeader, he, ht, htt]
  · simp [onErrorResponse, usesSharedInstance]
  · simp [requestAuthHeader, usesSharedInstance]
  · intro s hs
    by_cases hu : usesSharedInstance e <;> simp [onErrorResponse, hu, hs]

/-- Claim C2 witness: with token "tok" stored, a create-call request
carries the bearer header, and a 401 response to it clears the session and
redirects to login. -/
theorem C2_auth_amended_witness :
    onErrorResponse .callsCreate (some 401) ⟨some "tok", some "alice"⟩
        = ⟨⟨none, none⟩, true⟩ ∧
    requestAuthHeader .callsCreate ⟨some "tok", some "alice"⟩
        = some ("Bearer " ++ "tok") :=
  ⟨((C2_auth_amended .callsCreate ⟨some "tok", some "alice"⟩).1 rfl).1,
   ((C2_auth_amended .callsCreate ⟨some "tok", some "alice"⟩).1 rfl).2 "tok" rfl
     (by decide)⟩

/-- Claim C6: the manual duration input is rendered exactly when the
stopwatch is stopped with a zero counter; the submit button is disabled
whenever the stopwatch runs; whenever the counter is nonzero the submitted
duration is the counter, not the manual field; the live counter is shown
exactly when running or nonzero; and a stopped zero counter re-enables
manual entry. -/
theorem C6_duration_exclusivity :
    (∀ (r : Bool) (s : Nat),
        manualDurationInputVisible r s = true ↔ (r = false ∧ s = 0)) ∧
    (∀ sub : Bool, submitDisabled sub true = true) ∧
    (∀ (s : Nat) (d : String), s ≠ 0 → durationValue s d = (s : Int)) ∧
    (∀ (r : Bool) (s : Nat), timerDisplayVisible r s = true ↔ (r = true ∨ 0 < s)) ∧
    manualDurationInputVisible false 0 = true := by
  refine ⟨?_, ?_, ?_, ?_, rfl⟩
  · intro r s
    cases r <;> simp [manualDurationInputVisible]
  · intro sub
    simp [submitDisabled]
  · intro s d hs
    have hz : ((s : Int) ≠ 0) := by exact_mod_cast hs
    simp [durationValue, jsOr, JSNum.truthy, JSNum.toIntD, hz]
  · intro r s
    cases r <;> simp [timerDisplayVisible]

/-- Claim C6 witness: with the stopwatch at 30 seconds the manual field
"125" is ignored and the submitted duration is 30, and the submit button is
disabled while the stopwatch runs. -/
theorem C6_duration_exclusivity_witness :
    durationValue 30 "125" = (30 : Int) ∧ submitDisabled false true = true :=
  ⟨C6_duration_exclusivity.2.2.1 30 "125" (by decide),
   C6_duration_exclusivity.2.1 false⟩

/-- Claim C8: with authentication resolved, unauthenticated access to any
protected route redirects to the login screen; a user whose role is not in
a route's required roles — in particular any non-admin on the admin routes
— is redirected to the dashboard, while an admin reaches the admin page;
and the Admin navigation item is shown if and only if the role is
"admin". -/
theorem C8_role_gating :
    (∀ roles, protectedRoute false none roles = .redirectLogin) ∧
    (∀ (u : AuthUser) (roles : List String), u.role ∉ roles →
        protectedRoute false (some u) (some roles) = .redirectDashboard) ∧
    (∀ u : AuthUser, u.role ≠ "admin" →
        protectedRoute false (some u) (some adminRequiredRoles) = .redirectDashboard) ∧
    (∀ u : AuthUser, u.role = "admin" →
        protectedRoute false (some u) (some adminRequiredRoles) = .renderPage) ∧
    (∀ role, (⟨"/admin", "Admin"⟩ : NavItem) ∈ getNavItems role ↔ role = "admin") := by
  refine ⟨fun roles => ?_, fun u roles h => ?_, fun u h => ?_, fun u h => ?_, fun role => ?_⟩
  · cases roles <;> rfl
  · simp [protectedRoute, h]
  · simp [protectedRoute, adminRequiredRoles, h]
  · simp [protectedRoute, adminRequiredRoles, h]
  · by_cases hr : role = "admin"
    · subst hr
      simp [getNavItems]
    · simp [getNavItems, hr]

/-- Claim C8 witness: an agent is redirected off the admin route to the
dashboard and sees no Admin item; an admin reaches the admin page and sees
the item; an unauthenticated visit redirects to login. -/
theorem C8_role_gating_witness :
    protectedRoute false none (some adminRequiredRoles) = .redirectLogin ∧
    protectedRoute false (some ⟨"agent"⟩) (some adminRequiredRoles)
        = .redirectDashboard ∧
    protectedRoute false (some ⟨"admin"⟩) (some adminRequiredRoles) = .renderPage ∧
    ((⟨"/admin", "Admin"⟩ : NavItem) ∈ getNavItems "agent" ↔ ("agent" : String) = "admin") :=
  ⟨C8_role_gating.1 (some adminRequiredRoles),
   C8_role_gating.2.1 ⟨"agent"⟩ adminRequiredRoles (by decide),
   C8_role_gating.2.2.2.1 ⟨"admin"⟩ rfl,
   C8_role_gating.2.2.2.2 "agent"⟩

/-- Claim C9: an admin password-reset attempt issues the reset-password
request if and only if the entered password is at least 6 characters long;
shorter input fails locally with an inline error and no network call. -/
theorem C9_reset_password (pw uid : String) (res : Except ApiError Unit) :
    (pw.length < 6 →
       handleResetPassword pw uid res
         = ([], .validationError "Password must be at least 6 characters")) ∧
    (6 ≤ pw.length →
       (handleResetPassword pw uid res).1 = [.resetPasswordCall uid pw]) ∧
    ((handleResetPassword pw uid res).1 ≠ [] ↔ 6 ≤ pw.length) := by
  refine ⟨?_, ?_, ?_⟩
  · intro h
    simp [handleResetPassword, h]
  · intro h
    unfold handleResetPassword
    rw [if_neg (by omega)]
    cases res <;> rfl
  · constructor
    · intro h
      by_cases h6 : pw.length < 6
      · exact absurd (by simp [handleResetPassword, h6]) h
      · omega
    · intro h6
      unfold handleResetPassword
      rw [if_neg (by omega)]
      cases res <;> simp

/-- Claim C9 witness: "abc" is rejected locally with no request, while
"secret123" issues exactly the reset-password request for the selected
user. -/
theorem C9_reset_password_witness :
    handleResetPassword "abc" "u1" (.ok ())
        = ([], .validationError "Password must be at least 6 characters") ∧
    (handleResetPassword "secret123" "u1" (.ok ())).1
        = [.resetPasswordCall "u1" "secret123"] :=
  ⟨(C9_reset_password "abc" "u1" (.ok ())).1 (by decide),
   (C9_reset_password "secret123" "u1" (.ok ())).2.1 (by decide)⟩

/-- Claim C10: for every non-negative integer `n`, the rendered duration
strings decompose at their colon into a minutes part reading `n / 60` and a
two-character seconds part reading `n % 60` (so the seconds component is
below 60 and minutes·60 + seconds reconstructs `n`), `formatTimerDisplay`
pads the minutes to at least two characters, both renderings parse back to
`n`, and both renderers are injective. -/
theorem C10_duration_rendering :
    (∀ n : Nat,
        parseDuration (formatDuration n) = n ∧
        parseDuration (formatTimerDisplay n) = n ∧
        decDigitsVal (splitAtColon (formatDuration n).data).1 = n / 60 ∧
        decDigitsVal (splitAtColon (formatDuration n).data).2 = n % 60 ∧
        (splitAtColon (formatDuration n).data).2.length = 2 ∧
        (splitAtColon (formatTimerDisplay n).data).2.length = 2 ∧
        2 ≤ (splitAtColon (formatTimerDisplay n).data).1.length ∧
        n % 60 < 60 ∧
        (n / 60) * 60 + n % 60 = n) ∧
      Function.Injective formatDuration ∧
      Function.Injective formatTimerDisplay := by
  refine ⟨fun n => ?_, fun a b h => ?_, fun a b h => ?_⟩
  · refine ⟨parseDuration_formatDuration n, parseDuration_formatTimerDisplay n,
      ?_, ?_, ?_, ?_, ?_, ?_, ?_⟩
    · rw [splitAtColon_formatDuration]
      exact decDigitsVal_natDigits _
    · rw [splitAtColon_formatDuration]
      simp only [decDigitsVal_padTo]
      exact decDigitsVal_natDigits _
    · rw [splitAtColon_formatDuration]
      exact padTo_two_length _ (natDigits_length_le_two _ (by omega))
    · rw [splitAtColon_formatTimerDisplay]
      exact padTo_two_length _ (natDigits_length_le_two _ (by omega))
    · rw [splitAtColon_formatTimerDisplay]
      simp only [padTo, List.length_append, List.length_replicate]
      omega
    · omega
    · omega
  · have ha := parseDuration_formatDuration a
    rw [h, parseDuration_formatDuration] at ha
    omega
  · have ha := parseDuration_formatTimerDisplay a
    rw [h, parseDuration_formatTimerDisplay] at ha
    omega

/-- Claim C10 witness: 125 seconds renders and parses back on both
renderers, and equal renderings of 7 force equal inputs. -/
theorem C10_duration_rendering_witness :
    parseDuration (formatDuration 125) = 125 ∧
    parseDuration (formatTimerDisplay 3725) = 3725 ∧
    (7 : Nat) = 7 :=
  ⟨(C10_duration_rendering.1 125).1,
   (C10_duration_rendering.1 3725).2.1,
   C10_duration_rendering.2.1 (show formatDuration 7 = formatDuration 7 from rfl)⟩

end Helpline
